import Mathlib

/-!
Verification development for the twitch-miner-go runtime engine.

Shallow embedding conventions:
* Go strings on the wire (topic strings) are modelled as `List Char`;
  other Go `string` values are Lean `String`.
* Go `int` is `ℤ`, Go `float64` is `ℚ` (exact-arithmetic idealisation),
  Go `time.Time` is an `Option ℤ` of epoch seconds (`none` = the zero time)
  or a plain `ℚ` of seconds where only durations matter.
* `int(f)` conversion (truncation toward zero) is `goTrunc`,
  `math.Round` (half away from zero) is `goRound`.
* Go maps keyed by strings are total functions `String → _` with explicit
  defaults mirroring Go zero values / lazy initialisation.
-/

namespace TwitchMiner

/-- Go `int(f)`: truncation of a float toward zero. -/
def goTrunc (q : ℚ) : ℤ := if 0 ≤ q then ⌊q⌋ else -⌊-q⌋

/-- Go `math.Round`: round half away from zero. -/
def goRound (q : ℚ) : ℤ := if 0 ≤ q then ⌊q + 1/2⌋ else -⌊-q + 1/2⌋

/-- `roundFloat(val, 2)` from campaign.go: `math.Round(val*ratio)/ratio` with `ratio = 100`. -/
def roundFloat2 (q : ℚ) : ℚ := (goRound (q * 100) : ℚ) / 100

/-! ## PubSub topics (pubsub/topic source, `Topic`, `ParseTopic`) -/

/-- `Topic` from the pubsub package: a topic kind and a scope (channel) id.
Both are wire strings, modelled as char lists. -/
structure Topic where
  type_ : List Char
  channelID : List Char
deriving DecidableEq, Repr

/-- `Topic.String()`: `fmt.Sprintf("%s.%s", t.Type, t.ChannelID)`. -/
def Topic.toWire (t : Topic) : List Char := t.type_ ++ '.' :: t.channelID

/-- The scan of `ParseTopic`: walk the string from its last character
backwards and split at the first `'.'` found, i.e. at the **last** dot
of the string.  `none` when the string has no dot. -/
def lastDotSplit : List Char → Option (List Char × List Char)
  | [] => none
  | c :: rest =>
    match lastDotSplit rest with
    | some (a, b) => some (c :: a, b)
    | none => if c = '.' then some ([], rest) else none

/-- `ParseTopic` from the pubsub package (the error branch is `none`). -/
def parseTopic (s : List Char) : Option Topic :=
  (lastDotSplit s).map fun p => ⟨p.1, p.2⟩

/-! ## Connection pool bin-packing (`WebSocketPool.Submit`, `WebSocketClient.Listen`) -/

/-- `constants.MaxTopicsPerConnection`. -/
def maxTopicsPerConnection : ℕ := 50

/-- `WebSocketClient.Listen`: append the topic unless one with the same
wire string is already recorded. -/
def listenTopics (topics : List Topic) (t : Topic) : List Topic :=
  if topics.any (fun u => u.toWire = t.toWire) then topics else topics ++ [t]

/-- Apply `f` to the last element of a list (the pool only ever touches
`p.clients[len(p.clients)-1]`). -/
def setLast (f : List Topic → List Topic) : List (List Topic) → List (List Topic)
  | [] => []
  | [c] => [f c]
  | c :: rest => c :: setLast f rest

/-- `WebSocketPool.Submit`: each WebSocket client is represented by its
recorded topic list.  If there is no client yet, or the last client is at
`MaxTopicsPerConnection`, a fresh client is appended; then the topic is
`Listen`ed on the last client. -/
def poolSubmit (clients : List (List Topic)) (t : Topic) : List (List Topic) :=
  let clients' :=
    match clients.getLast? with
    | none => clients ++ [[]]
    | some c => if maxTopicsPerConnection ≤ c.length then clients ++ [[]] else clients
  setLast (fun c => listenTopics c t) clients'

/-- Submitting a sequence of topics to a freshly constructed pool. -/
def poolRun (ts : List Topic) : List (List Topic) := ts.foldl poolSubmit []

/-! ## Bet model (models/campaign.go) -/

/-- `FilterCondition` from campaign.go. `by`/`where` are Lean keywords, hence
the trailing underscores. -/
structure FilterCondition where
  by_ : String
  where_ : String
  value : ℚ
deriving DecidableEq, Repr

/-- `BetSettings` from campaign.go.  `Strategy`, `DelayMode` are Go string
types, kept as strings. -/
structure BetSettings where
  strategy : String
  percentage : ℤ
  percentageGap : ℤ
  maxPoints : ℤ
  minimumPoints : ℤ
  stealthMode : Bool
  filterCondition : Option FilterCondition
  delay : ℚ
  delayMode : String
deriving DecidableEq, Repr

/-- `DefaultBetSettings()` from campaign.go. -/
def defaultBetSettings : BetSettings :=
  { strategy := "SMART", percentage := 5, percentageGap := 20, maxPoints := 50000,
    minimumPoints := 0, stealthMode := false, filterCondition := none,
    delay := 6, delayMode := "FROM_END" }

/-- `Outcome` from campaign.go. -/
structure Outcome where
  id : String
  title : String
  color : String
  totalUsers : ℤ
  totalPoints : ℤ
  topPoints : ℤ
  percentageUsers : ℚ
  odds : ℚ
  oddsPercentage : ℚ
deriving DecidableEq, Repr

instance : Inhabited Outcome :=
  ⟨{ id := "", title := "", color := "", totalUsers := 0, totalPoints := 0,
     topPoints := 0, percentageUsers := 0, odds := 0, oddsPercentage := 0 }⟩

/-- `Decision` from campaign.go. -/
structure Decision where
  choice : ℤ
  amount : ℤ
  id : String
deriving DecidableEq, Repr

/-- `Bet` from campaign.go. -/
structure Bet where
  outcomes : List Outcome
  decision : Decision
  totalUsers : ℤ
  totalPoints : ℤ
  settings : BetSettings
deriving DecidableEq, Repr

/-- A parsed entry of the dynamic-JSON outcome array handed to
`NewOutcomeFromGQL` / `Bet.UpdateOutcomes`: `none` fields are failed
type assertions; a top predictor is its `points` field when present. -/
structure RawOutcome where
  id : Option String
  title : Option String
  color : Option String
  totalUsers : Option ℤ
  totalPoints : Option ℤ
  topPredictors : Option (List (Option ℤ))
deriving DecidableEq, Repr

/-- `NewOutcomeFromGQL` from campaign.go (missing fields keep Go zero values). -/
def newOutcomeFromGQL (d : RawOutcome) : Outcome :=
  { id := d.id.getD "", title := d.title.getD "", color := d.color.getD "",
    totalUsers := d.totalUsers.getD 0, totalPoints := d.totalPoints.getD 0,
    topPoints := 0, percentageUsers := 0, odds := 0, oddsPercentage := 0 }

/-- `NewBet` from campaign.go.  The Go zero value of `Decision` is
`{Choice: 0, Amount: 0, ID: ""}`. -/
def newBet (outcomes : List RawOutcome) (settings : BetSettings) : Bet :=
  { outcomes := outcomes.map newOutcomeFromGQL, decision := ⟨0, 0, ""⟩,
    totalUsers := 0, totalPoints := 0, settings := settings }

/-- `Bet.getOutcomeValue` from campaign.go (`0` past the end of the list). -/
def getOutcomeValue (b : Bet) (index : ℕ) (key : String) : ℚ :=
  match b.outcomes[index]? with
  | none => 0
  | some o =>
    if key = "percentage_users" then o.percentageUsers
    else if key = "odds_percentage" then o.oddsPercentage
    else if key = "odds" then o.odds
    else if key = "top_points" then (o.topPoints : ℚ)
    else if key = "total_users" then (o.totalUsers : ℚ)
    else if key = "total_points" then (o.totalPoints : ℚ)
    else 0

/-- `Bet.returnChoice` from campaign.go: `largest := 0`, then for
`i = 1 .. len-1`, `largest := i` when `value(i) > value(largest)`. -/
def returnChoice (b : Bet) (key : String) : ℕ :=
  (List.range' 1 (b.outcomes.length - 1)).foldl
    (fun largest i =>
      if getOutcomeValue b i key > getOutcomeValue b largest key then i else largest)
    0

/-- `Bet.returnNumberChoice` from campaign.go. -/
def returnNumberChoice (b : Bet) (n : ℕ) : ℕ :=
  if b.outcomes.length > n then n else 0

/-- The strategy dispatch of `Bet.Calculate`, yielding `Decision.Choice`
(`-1` when no strategy matches, or under `SMART` with fewer than two
outcomes). -/
def calculateChoice (b : Bet) : ℤ :=
  if b.settings.strategy = "MOST_VOTED" then returnChoice b "total_users"
  else if b.settings.strategy = "HIGH_ODDS" then returnChoice b "odds"
  else if b.settings.strategy = "PERCENTAGE" then returnChoice b "odds_percentage"
  else if b.settings.strategy = "SMART_MONEY" then returnChoice b "top_points"
  else if b.settings.strategy = "NUMBER_1" then returnNumberChoice b 0
  else if b.settings.strategy = "NUMBER_2" then returnNumberChoice b 1
  else if b.settings.strategy = "NUMBER_3" then returnNumberChoice b 2
  else if b.settings.strategy = "NUMBER_4" then returnNumberChoice b 3
  else if b.settings.strategy = "NUMBER_5" then returnNumberChoice b 4
  else if b.settings.strategy = "NUMBER_6" then returnNumberChoice b 5
  else if b.settings.strategy = "NUMBER_7" then returnNumberChoice b 6
  else if b.settings.strategy = "NUMBER_8" then returnNumberChoice b 7
  else if b.settings.strategy = "SMART" then
    if 2 ≤ b.outcomes.length then
      if |(b.outcomes.getD 0 default).percentageUsers -
          (b.outcomes.getD 1 default).percentageUsers| < (b.settings.percentageGap : ℚ)
      then returnChoice b "odds"
      else returnChoice b "total_users"
    else -1
  else -1

/-- `Bet.Calculate` from campaign.go.  `x` is the `rand.Float64()` draw of
the stealth branch, a value in `[0, 1)`; `int(rand.Float64()*4 + 1)` is
`goTrunc (x*4 + 1)`. -/
def betCalculate (b : Bet) (balance : ℤ) (x : ℚ) : Bet :=
  let choice := calculateChoice b
  if 0 ≤ choice ∧ choice < (b.outcomes.length : ℤ) then
    let o := b.outcomes.getD choice.toNat default
    let amount₀ := goTrunc ((balance : ℚ) * ((b.settings.percentage : ℚ) / 100))
    let amount₁ := if b.settings.maxPoints < amount₀ then b.settings.maxPoints else amount₀
    let amount₂ :=
      if b.settings.stealthMode ∧ o.topPoints ≤ amount₁
      then o.topPoints - goTrunc (x * 4 + 1)
      else amount₁
    { b with decision := ⟨choice, amount₂, o.id⟩ }
  else
    { b with decision := ⟨choice, 0, ""⟩ }

/-- `Bet.Skip` from campaign.go: decide whether the filter condition
discards the computed bet (`true` = skip).  The chosen-outcome lookup uses
`Decision.Choice`, an `int`; `Skip` is only reached with a valid choice,
and a negative index is mapped to value `0` here in place of the Go
runtime panic. -/
def betSkip (b : Bet) : Bool × ℚ :=
  match b.settings.filterCondition with
  | none => (false, 0)
  | some fc =>
    let fixedKey :=
      if fc.by_ = "decision_users" then "total_users"
      else if fc.by_ = "decision_points" then "total_points"
      else fc.by_
    let comparedValue :=
      if fc.by_ = "total_users" ∨ fc.by_ = "total_points" then
        if 2 ≤ b.outcomes.length then
          getOutcomeValue b 0 fixedKey + getOutcomeValue b 1 fixedKey
        else 0
      else
        if 0 ≤ b.decision.choice then getOutcomeValue b b.decision.choice.toNat fixedKey else 0
    if fc.where_ = "GT" then (¬ (comparedValue > fc.value), comparedValue)
    else if fc.where_ = "LT" then (¬ (comparedValue < fc.value), comparedValue)
    else if fc.where_ = "GTE" then (¬ (comparedValue ≥ fc.value), comparedValue)
    else if fc.where_ = "LTE" then (¬ (comparedValue ≤ fc.value), comparedValue)
    else (true, comparedValue)

/-- `Bet.UpdateOutcomes` step for a single outcome and its raw update. -/
def applyOutcomeUpdate (o : Outcome) (u : RawOutcome) : Outcome :=
  let o₁ := match u.totalUsers with | some n => { o with totalUsers := n } | none => o
  let o₂ := match u.totalPoints with | some n => { o₁ with totalPoints := n } | none => o₁
  match u.topPredictors with
  | some tps =>
    if 0 < tps.length then
      { o₂ with topPoints :=
          tps.foldl (fun m p => match p with
            | some pts => if pts > m then pts else m
            | none => m) 0 }
    else o₂
  | none => o₂

/-- `Bet.UpdateOutcomes` from campaign.go: merge the raw updates by index
(extras past the stored outcomes are dropped), recompute the totals, and
when both totals are positive re-derive `PercentageUsers` for every
outcome and `Odds`/`OddsPercentage` for outcomes with positive points. -/
def betUpdateOutcomes (b : Bet) (updates : List RawOutcome) : Bet :=
  let outs := (List.range b.outcomes.length).map fun i =>
    let o := b.outcomes.getD i default
    match updates[i]? with
    | none => o
    | some u => applyOutcomeUpdate o u
  let totalUsers : ℤ := (outs.map (·.totalUsers)).sum
  let totalPoints : ℤ := (outs.map (·.totalPoints)).sum
  let outs' :=
    if 0 < totalUsers ∧ 0 < totalPoints then
      outs.map fun o =>
        let o' := { o with percentageUsers := roundFloat2 (((o.totalUsers : ℚ) * 100) / (totalUsers : ℚ)) }
        if 0 < o.totalPoints then
          let odds := roundFloat2 ((totalPoints : ℚ) / (o.totalPoints : ℚ))
          { o' with odds := odds, oddsPercentage := roundFloat2 (100 / odds) }
        else o'
    else outs
  { b with outcomes := outs', totalUsers := totalUsers, totalPoints := totalPoints }

/-! ## Streamer model (models/streamer.go) -/

/-- `HistoryEntry` from streamer.go. -/
structure HistoryEntry where
  counter : ℤ
  amount : ℤ
deriving DecidableEq, Repr

/-- `StreamerSettings` from streamer.go (the chat fields play no role in
the claims' code paths but are kept for shape). -/
structure StreamerSettings where
  makePredictions : Bool
  followRaid : Bool
  claimDrops : Bool
  claimMoments : Bool
  watchStreak : Bool
  communityGoals : Bool
  chat : String
  bet : BetSettings
deriving DecidableEq, Repr

/-- `Streamer` from streamer.go, flattened together with the `Stream`
fields the claims touch (`WatchStreakMissing`, `MinuteWatched`,
`CampaignIDs`); the history map is a total function defaulting to the Go
zero entry.  Timestamps are epoch seconds, `none` = `time.Time{}`. -/
structure Streamer where
  username : String
  channelID : String
  settings : StreamerSettings
  isOnline : Bool
  onlineAt : Option ℤ
  offlineAt : Option ℤ
  channelPoints : ℤ
  watchStreakMissing : Bool
  minuteWatched : ℚ
  campaignIDs : List String
  multipliers : List ℚ
  history : String → HistoryEntry

instance : Inhabited Streamer :=
  ⟨{ username := "", channelID := "", isOnline := false, onlineAt := none,
     offlineAt := none, channelPoints := 0, watchStreakMissing := true,
     minuteWatched := 0, campaignIDs := [], multipliers := [],
     history := fun _ => ⟨0, 0⟩,
     settings := { makePredictions := true, followRaid := true, claimDrops := true,
                   claimMoments := true, watchStreak := true, communityGoals := false,
                   chat := "ONLINE", bet := defaultBetSettings } }⟩

/-- `NewStreamer` from streamer.go: fresh live state, fresh stream record
(`WatchStreakMissing = true`), empty history. -/
def newStreamer (username : String) (settings : StreamerSettings) : Streamer :=
  { username := username, channelID := "", settings := settings, isOnline := false,
    onlineAt := none, offlineAt := none, channelPoints := 0,
    watchStreakMissing := true, minuteWatched := 0, campaignIDs := [],
    multipliers := [], history := fun _ => ⟨0, 0⟩ }

/-- `Streamer.SetOffline`: when online, stamp `OfflineAt` and clear the
flag; `OnlineAt` is left untouched. -/
def setOffline (now : ℤ) (s : Streamer) : Streamer :=
  if s.isOnline then { s with offlineAt := some now, isOnline := false } else s

/-- `Streamer.SetOnline`: when offline, stamp `OnlineAt`, set the flag and
run `Stream.InitWatchStreak` (`WatchStreakMissing := true`,
`MinuteWatched := 0`). -/
def setOnline (now : ℤ) (s : Streamer) : Streamer :=
  if s.isOnline then s
  else { s with onlineAt := some now, isOnline := true,
                watchStreakMissing := true, minuteWatched := 0 }

/-- `Streamer.UpdateHistory`: bump `(counter, amount)` at the reason code
by `(+1, +earned)`; a `WATCH_STREAK` reason also clears the stream's
watch-streak flag. -/
def updateHistory (s : Streamer) (reasonCode : String) (earned : ℤ) : Streamer :=
  let entry := s.history reasonCode
  let s' := { s with history := fun k =>
    if k = reasonCode then ⟨entry.counter + 1, entry.amount + earned⟩ else s.history k }
  if reasonCode = "WATCH_STREAK" then { s' with watchStreakMissing := false } else s'

/-- `Streamer.UpdateHistoryWithCounter`: bump `(counter, amount)` at the
reason code by `(+counter, +earned)`. -/
def updateHistoryWithCounter (s : Streamer) (reasonCode : String) (earned counter : ℤ) : Streamer :=
  let entry := s.history reasonCode
  { s with history := fun k =>
    if k = reasonCode then ⟨entry.counter + counter, entry.amount + earned⟩ else s.history k }

/-- `Streamer.DropsCondition` from streamer.go. -/
def dropsCondition (s : Streamer) : Bool :=
  s.settings.claimDrops && s.isOnline && !s.campaignIDs.isEmpty

/-- `Streamer.TotalPointsMultiplier` from streamer.go. -/
def totalPointsMultiplier (s : Streamer) : ℚ := s.multipliers.sum

/-- `Streamer.GetPredictionWindow` from streamer.go. -/
def getPredictionWindow (settings : BetSettings) (predictionWindowSeconds : ℚ) : ℚ :=
  if settings.delayMode = "FROM_START" then
    if settings.delay < predictionWindowSeconds then settings.delay else predictionWindowSeconds
  else if settings.delayMode = "FROM_END" then
    if predictionWindowSeconds - settings.delay < 0 then 0
    else predictionWindowSeconds - settings.delay
  else if settings.delayMode = "PERCENTAGE" then predictionWindowSeconds * settings.delay
  else predictionWindowSeconds

/-! ## Prediction events (models/prediction.go) -/

/-- `PredictionResult` from prediction.go (the formatted display string is
omitted; it is write-only). -/
structure PredictionResult where
  type_ : String
  gained : ℤ
deriving DecidableEq, Repr

/-- `EventPrediction` from prediction.go.  The streamer back-reference is
passed to the handlers explicitly; `CreatedAt` is epoch seconds. -/
structure EventPrediction where
  eventID : String
  title : String
  createdAt : ℚ
  predictionWindowSeconds : ℚ
  status : String
  result : PredictionResult
  betConfirmed : Bool
  betPlaced : Bool
  bet : Bet
deriving DecidableEq, Repr

/-- `NewEventPrediction` from prediction.go. -/
def newEventPrediction (settings : StreamerSettings) (eventID title : String)
    (createdAt adjustedWindow : ℚ) (status : String) (outcomes : List RawOutcome) :
    EventPrediction :=
  { eventID := eventID, title := title, createdAt := createdAt,
    predictionWindowSeconds := adjustedWindow, status := status,
    result := ⟨"", 0⟩, betConfirmed := false, betPlaced := false,
    bet := newBet outcomes settings.bet }

/-- `EventPrediction.ClosingBetAfter`. -/
def closingBetAfter (e : EventPrediction) (now : ℚ) : ℚ :=
  e.predictionWindowSeconds - (now - e.createdAt)

/-- `EventPrediction.ParseResult`: returns the updated event and
`(placed, won, gained)`.  `pointsWon = none` models a missing or
non-numeric `points_won` field (the Go local stays `0`). -/
def parseResult (e : EventPrediction) (resultType : String) (pointsWon : Option ℤ) :
    EventPrediction × ℤ × ℤ × ℤ :=
  let placed := if resultType = "REFUND" then 0 else e.bet.decision.amount
  let won := if resultType = "REFUND" then 0 else pointsWon.getD 0
  let gained := if resultType ≠ "REFUND" then won - placed else 0
  ({ e with result := ⟨resultType, gained⟩ }, placed, won, gained)

/-- The `MakePrediction` GraphQL input assembled by
`TwitchClient.MakePrediction` (the random transaction id is omitted). -/
structure Submission where
  eventID : String
  outcomeID : String
  points : ℤ
deriving DecidableEq, Repr

/-- `TwitchClient.MakePrediction` from the api package: run
`Bet.Calculate` on the streamer's balance, abort (no API call) when the
amount is below 10 or the filter says skip, otherwise submit and mark the
bet placed.  The first component is the submitted input, `none` when no
bet reaches the API. -/
def makePrediction (e : EventPrediction) (balance : ℤ) (x : ℚ) :
    Option Submission × EventPrediction :=
  let b' := betCalculate e.bet balance x
  let e' := { e with bet := b' }
  if b'.decision.amount < 10 then (none, e')
  else if (betSkip b').1 then (none, e')
  else (some ⟨e.eventID, b'.decision.id, b'.decision.amount⟩, { e' with betPlaced := true })

/-! ## Dispatcher prediction handlers (pubsub pool source, `handlePredictionChannel`,
`handlePredictionUser`) -/

/-- The fields extracted from a `channel-predictions` frame's
`data.event`. -/
structure PredictionEventFrame where
  eventID : String
  status : String
  title : String
  createdAt : ℚ
  predictionWindowSeconds : ℚ
  outcomes : List RawOutcome
deriving DecidableEq, Repr

/-- The dispatcher's prediction tracking map (`WebSocketPool.predictions`). -/
def Predictions : Type := String → Option EventPrediction

/-- `WebSocketPool.handlePredictionChannel`, `event-created` branch: the
updated tracking map together with `true` iff the event was stored and a
deferred bet scheduled. -/
def handleEventCreated (s : Streamer) (preds : Predictions)
    (f : PredictionEventFrame) (now : ℚ) : Predictions × Bool :=
  if !s.settings.makePredictions then (preds, false)
  else if (preds f.eventID).isSome ∨ f.status ≠ "ACTIVE" then (preds, false)
  else
    let adjustedWindow := getPredictionWindow s.settings.bet f.predictionWindowSeconds
    let event := newEventPrediction s.settings f.eventID f.title f.createdAt
      adjustedWindow f.status f.outcomes
    if !s.isOnline then (preds, false)
    else if closingBetAfter event now ≤ 0 then (preds, false)
    else if s.settings.bet.minimumPoints > 0 ∧ s.channelPoints ≤ s.settings.bet.minimumPoints
    then (preds, false)
    else ((fun k => if k = f.eventID then some event else preds k), true)

/-- `WebSocketPool.handlePredictionChannel`, `event-updated` branch:
overwrite the stored event's status; refresh the outcome statistics only
when the bet is not placed and no decision has been computed. -/
def handleEventUpdated (s : Streamer) (preds : Predictions)
    (eventID newStatus : String) (updates : List RawOutcome) : Predictions :=
  if !s.settings.makePredictions then preds
  else
    match preds eventID with
    | none => preds
    | some event =>
      let event₁ := { event with status := newStatus }
      let event₂ :=
        if !event₁.betPlaced ∧ event₁.bet.decision.id = ""
        then { event₁ with bet := betUpdateOutcomes event₁.bet updates }
        else event₁
      fun k => if k = eventID then some event₂ else preds k

/-- `WebSocketPool.handlePredictionUser`, `prediction-result` branch:
parse the result on a confirmed tracked event, update the streamer's
history ledger, and store the event (Go mutates it through the map's
pointer).  Nothing is ever deleted from the map. -/
def handlePredictionResult (s : Streamer) (preds : Predictions)
    (eventID resultType : String) (pointsWon : Option ℤ) :
    Streamer × Predictions :=
  match preds eventID with
  | none => (s, preds)
  | some event =>
    if !event.betConfirmed then (s, preds)
    else
      let r := parseResult event resultType pointsWon
      let event' := r.1
      let placed := r.2.1
      let won := r.2.2.1
      let gained := r.2.2.2
      let s₁ := updateHistory s "PREDICTION" gained
      let s₂ :=
        if event'.result.type_ = "REFUND" then
          updateHistoryWithCounter s₁ "REFUND" (-placed) (-1)
        else if event'.result.type_ = "WIN" then
          updateHistoryWithCounter s₁ "PREDICTION" (-won) (-1)
        else s₁
      (s₂, fun k => if k = eventID then some event' else preds k)

/-! ## Watch scheduler selection (miner.go, `selectStreamersToWatch`) -/

/-- `constants.MaxSimultaneousStreams`. -/
def maxSimultaneousStreams : ℕ := 2

/-- The `STREAK` candidate filter of `selectStreamersToWatch` (`now` in
epoch seconds; 30 minutes = 1800 s). -/
def streakCond (s : Streamer) (now : ℤ) : Bool :=
  s.settings.watchStreak && s.watchStreakMissing &&
    (match s.offlineAt with
     | none => true
     | some t => decide (now - t > 1800)) &&
    decide (s.minuteWatched < 7)

/-- One iteration of the insertion loop over a priority's candidates:
skip members already selected, insert while below the slot bound (the Go
loop `break`s out right after the bound is reached, which is equivalent). -/
def addCandidate (max : ℕ) (acc : List ℕ) (i : ℕ) : List ℕ :=
  if i ∈ acc then acc else if acc.length < max then acc ++ [i] else acc

/-- Insert a priority's ordered candidates. -/
def addCandidates (max : ℕ) (acc : List ℕ) (cands : List ℕ) : List ℕ :=
  cands.foldl (addCandidate max) acc

/-- The ordered candidate list a priority contributes, as iterated by
`selectStreamersToWatch`.  `sort.Slice` is modelled as a merge sort by the
same comparator (deterministic representative of the unstable Go sort). -/
def candidatesFor (S : List Streamer) (online : List ℕ) (now : ℤ) (priority : String) :
    List ℕ :=
  let pts := fun i => (S.getD i default).channelPoints
  if priority = "ORDER" then online
  else if priority = "POINTS_ASCENDING" then
    online.mergeSort (fun a b => decide (pts a ≤ pts b))
  else if priority = "POINTS_DESCENDING" then
    online.mergeSort (fun a b => decide (pts b ≤ pts a))
  else if priority = "STREAK" then online.filter (fun i => streakCond (S.getD i default) now)
  else if priority = "DROPS" then online.filter (fun i => dropsCondition (S.getD i default))
  else if priority = "SUBSCRIBED" then
    (online.filter (fun i => !(S.getD i default).multipliers.isEmpty)).mergeSort
      (fun a b => decide (totalPointsMultiplier (S.getD b default) ≤
                          totalPointsMultiplier (S.getD a default)))
  else []

/-- The order in which `selectStreamersToWatch` inserts broadcasters into
its `watching` map: walk the priority list, adding each priority's
candidates while slots remain. -/
def selectionList (S : List Streamer) (priorities : List String) (online : List ℕ)
    (now : ℤ) : List ℕ :=
  priorities.foldl
    (fun acc p => addCandidates maxSimultaneousStreams acc (candidatesFor S online now p))
    []

/-- The value `selectStreamersToWatch` actually returns: the Go code
collects the `watching` map's keys with `for idx := range watching`, an
arbitrary duplicate-free enumeration of the selected set — this predicate
holds of every list the function may return.  `processWatching` then
emits one beacon per entry, sequentially, in the order of that list. -/
def SelectionOutput (S : List Streamer) (priorities : List String) (online : List ℕ)
    (now : ℤ) (l : List ℕ) : Prop :=
  l.Nodup ∧ l.toFinset = (selectionList S priorities online now).toFinset

/-! ## C9: topic round-trip -/

lemma lastDotSplit_eq_none {l : List Char} (h : '.' ∉ l) : lastDotSplit l = none := by
  induction l with
  | nil => rfl
  | cons c rest ih =>
    have hc : c ≠ '.' := fun hc => h (hc ▸ List.mem_cons_self c rest)
    have hr : '.' ∉ rest := fun hr => h (List.mem_cons_of_mem c hr)
    simp [lastDotSplit, ih hr, hc]

lemma lastDotSplit_sep (k id : List Char) (h : '.' ∉ id) :
    lastDotSplit (k ++ '.' :: id) = some (k, id) := by
  induction k with
  | nil => simp [lastDotSplit, lastDotSplit_eq_none h]
  | cons c rest ih => simp [lastDotSplit, ih]

/-- C9 (corrected): the claimed round-trip `parseTopic (formatTopic kind id)
= (kind, id)` fails for ids containing a dot, because `ParseTopic` splits
at the **last** dot of the wire string: with kind `raid` and the non-empty
id `1.2`, parsing the formatted topic yields `(raid.1, 2)`. -/
theorem parseTopic_toWire_cex :
    (Topic.mk ['r','a','i','d'] ['1','.','2']).channelID ≠ [] ∧
    parseTopic (Topic.toWire ⟨['r','a','i','d'], ['1','.','2']⟩) ≠
      some ⟨['r','a','i','d'], ['1','.','2']⟩ ∧
    parseTopic (Topic.toWire ⟨['r','a','i','d'], ['1','.','2']⟩) =
      some ⟨['r','a','i','d','.','1'], ['2']⟩ := by
  decide

/-- C9 (amended): for every topic kind and every non-empty scope id **that
contains no dot**, parsing the formatted topic string round-trips:
`parseTopic (formatTopic kind id) = (kind, id)`.  All scope ids the pool
subscribes (numeric channel/user ids) are dot-free. -/
theorem parseTopic_toWire (t : Topic) (hne : t.channelID ≠ [])
    (hdot : '.' ∉ t.channelID) : parseTopic t.toWire = some t := by
  simp [parseTopic, Topic.toWire, lastDotSplit_sep _ _ hdot]

/-- Witness for C9 at kind `raid`, id `123`. -/
theorem parseTopic_toWire_witness :
    parseTopic (Topic.toWire ⟨['r','a','i','d'], ['1','2','3']⟩) =
      some ⟨['r','a','i','d'], ['1','2','3']⟩ :=
  parseTopic_toWire ⟨['r','a','i','d'], ['1','2','3']⟩ (by decide) (by decide)

/-! ## C1: pool bin-packing -/

lemma setLast_eq_dropLast_concat (f : List Topic → List Topic) :
    ∀ (l : List (List Topic)) (c : List Topic), l.getLast? = some c →
      setLast f l = l.dropLast ++ [f c]
  | [], c => by simp
  | [a], c => by
    intro h
    simp only [List.getLast?_singleton, Option.some.injEq] at h
    simp [setLast, h]
  | a :: b :: rest, c => by
    intro h
    have h' : (b :: rest).getLast? = some c := by simpa using h
    have := setLast_eq_dropLast_concat f (b :: rest) c h'
    simp [setLast, this]

lemma listenTopics_length (l : List Topic) (t : Topic) :
    (listenTopics l t).length ≤ l.length + 1 := by
  unfold listenTopics
  split <;> simp

lemma poolSubmit_bound {clients : List (List Topic)} (t : Topic)
    (h : ∀ s ∈ clients, s.length ≤ maxTopicsPerConnection) :
    ∀ s ∈ poolSubmit clients t, s.length ≤ maxTopicsPerConnection := by
  intro s hs
  unfold poolSubmit at hs
  rcases hlast : clients.getLast? with _ | c
  · have hnil : clients = [] := by simpa using hlast
    subst hnil
    simp only [List.getLast?_nil, List.nil_append] at hs
    have hset : setLast (fun c => listenTopics c t) [[]] = [listenTopics [] t] := rfl
    rw [hset] at hs
    simp only [List.mem_singleton] at hs
    subst hs
    simp [listenTopics, maxTopicsPerConnection]
  · simp only [hlast] at hs
    by_cases hful : maxTopicsPerConnection ≤ c.length
    · rw [if_pos hful] at hs
      rw [setLast_eq_dropLast_concat _ (clients ++ [[]]) [] (by simp)] at hs
      simp only [List.dropLast_concat, List.mem_append, List.mem_singleton] at hs
      rcases hs with hs | hs
      · exact h s hs
      · subst hs
        simp [listenTopics, maxTopicsPerConnection]
    · rw [if_neg hful] at hs
      rw [setLast_eq_dropLast_concat _ clients c hlast] at hs
      simp only [List.mem_append, List.mem_singleton] at hs
      rcases hs with hs | hs
      · exact h s (List.dropLast_subset clients hs)
      · subst hs
        have := listenTopics_length c t
        have hlt : c.length < maxTopicsPerConnection := Nat.lt_of_not_le hful
        omega

lemma poolRun_aux_bound :
    ∀ (ts : List Topic) (clients : List (List Topic)),
      (∀ s ∈ clients, s.length ≤ maxTopicsPerConnection) →
      ∀ s ∈ ts.foldl poolSubmit clients, s.length ≤ maxTopicsPerConnection
  | [], clients, h => h
  | t :: ts, clients, h => by
    simpa using poolRun_aux_bound ts (poolSubmit clients t) (poolSubmit_bound t h)

/-- 51 distinct topics (kind `raid`, decimal scope ids `0`‥`50`). -/
def topics51 : List Topic := (List.range 51).map fun i => ⟨['r','a','i','d'], Nat.toDigits 10 i⟩

set_option maxRecDepth 4000 in
/-- C1 (confirmed): a submitted topic goes to the last session when it has
fewer than 50 topics, otherwise a new session is opened and receives it;
hence starting from the empty pool no session ever exceeds 50 topics, and
submitting 51 distinct topics yields exactly 2 sessions of sizes
(50, 1) in subscription order. -/
theorem pool_binpacking :
    (∀ ts : List Topic, ∀ s ∈ poolRun ts, s.length ≤ maxTopicsPerConnection) ∧
    (∀ (clients : List (List Topic)) (c : List Topic) (t : Topic),
      clients.getLast? = some c → c.length < maxTopicsPerConnection →
        poolSubmit clients t = clients.dropLast ++ [listenTopics c t]) ∧
    (∀ (clients : List (List Topic)) (c : List Topic) (t : Topic),
      clients.getLast? = some c → maxTopicsPerConnection ≤ c.length →
        poolSubmit clients t = clients ++ [[t]]) ∧
    (poolRun topics51).map List.length = [50, 1] := by
  refine ⟨fun ts => poolRun_aux_bound ts [] (by simp), ?_, ?_, ?_⟩
  · intro clients c t hlast hlt
    unfold poolSubmit
    simp only [hlast]
    rw [if_neg (Nat.not_le_of_lt hlt)]
    exact setLast_eq_dropLast_concat _ clients c hlast
  · intro clients c t hlast hful
    unfold poolSubmit
    simp only [hlast]
    rw [if_pos hful,
      setLast_eq_dropLast_concat _ (clients ++ [[]]) [] (by simp)]
    simp [listenTopics]
  · decide

/-- Witness for C1's conditional parts: with one session holding a single
topic, a further submission lands on that session; with a full session, a
new one is opened. -/
theorem pool_binpacking_witness :
    poolSubmit [[⟨['a'], ['1']⟩]] ⟨['a'], ['2']⟩ =
      [] ++ [listenTopics [⟨['a'], ['1']⟩] ⟨['a'], ['2']⟩] :=
  pool_binpacking.2.1 [[⟨['a'], ['1']⟩]] [⟨['a'], ['1']⟩] ⟨['a'], ['2']⟩ (by decide) (by decide)

/-! ## C3: SMART strategy with percentageGap 0 -/

/-- The scanning loop of `returnChoice`, abstracted over the scored
function: fold `[i, i+1, …, i+k-1]` keeping the best index seen. -/
def argmaxFold (f : ℕ → ℚ) (i k a : ℕ) : ℕ :=
  (List.range' i k).foldl (fun largest j => if f j > f largest then j else largest) a

lemma argmaxFold_spec (f : ℕ → ℚ) :
    ∀ (k i a : ℕ), a < i → (∀ j, j < i → f j ≤ f a) → (∀ j, j < a → f j < f a) →
      argmaxFold f i k a < i + k ∧
      (∀ j, j < i + k → f j ≤ f (argmaxFold f i k a)) ∧
      (∀ j, j < argmaxFold f i k a → f j < f (argmaxFold f i k a))
  | 0, i, a => fun ha hle hlt => by
    simpa [argmaxFold] using ⟨Nat.lt_of_lt_of_le ha (Nat.le_refl i), hle, hlt⟩
  | k + 1, i, a => fun ha hle hlt => by
    have hstep : argmaxFold f i (k + 1) a =
        argmaxFold f (i + 1) k (if f i > f a then i else a) := by
      simp [argmaxFold, List.range'_succ]
    rw [hstep]
    by_cases hfi : f i > f a
    · rw [if_pos hfi]
      have := argmaxFold_spec f k (i + 1) i (Nat.lt_succ_self i)
        (fun j hj => by
          rcases Nat.lt_succ_iff_lt_or_eq.mp hj with hj | hj
          · exact le_of_lt (lt_of_le_of_lt (hle j hj) hfi)
          · exact hj ▸ le_refl _)
        (fun j hj => lt_of_le_of_lt (hle j hj) hfi)
      refine ⟨?_, ?_, this.2.2⟩ <;> [skip; skip] <;>
        first
          | exact lt_of_lt_of_le this.1 (by omega)
          | exact fun j hj => this.2.1 j (by omega)
    · rw [if_neg hfi]
      have := argmaxFold_spec f k (i + 1) a (Nat.lt_succ_of_lt ha)
        (fun j hj => by
          rcases Nat.lt_succ_iff_lt_or_eq.mp hj with hj | hj
          · exact hle j hj
          · exact hj ▸ le_of_not_lt hfi)
        hlt
      refine ⟨?_, ?_, this.2.2⟩ <;> [skip; skip] <;>
        first
          | exact lt_of_lt_of_le this.1 (by omega)
          | exact fun j hj => this.2.1 j (by omega)

lemma returnChoice_eq_argmaxFold (b : Bet) (key : String) :
    returnChoice b key = argmaxFold (fun i => getOutcomeValue b i key) 1 (b.outcomes.length - 1) 0 :=
  rfl

/-- `returnChoice` picks the lowest-index argmax of the key over all
outcome indices. -/
lemma returnChoice_argmax (b : Bet) (key : String) (hl : 1 ≤ b.outcomes.length) :
    returnChoice b key < b.outcomes.length ∧
    (∀ j, j < b.outcomes.length →
      getOutcomeValue b j key ≤ getOutcomeValue b (returnChoice b key) key) ∧
    (∀ j, j < returnChoice b key →
      getOutcomeValue b j key < getOutcomeValue b (returnChoice b key) key) := by
  have h := argmaxFold_spec (fun i => getOutcomeValue b i key) (b.outcomes.length - 1) 1 0
    Nat.zero_lt_one
    (fun j hj => by interval_cases j <;> exact le_refl _)
    (fun j hj => absurd hj (Nat.not_lt_zero j))
  rw [returnChoice_eq_argmaxFold]
  have harith : 1 + (b.outcomes.length - 1) = b.outcomes.length := by omega
  rw [harith] at h
  exact h

/-- A bet under `SMART` with `percentageGap = 0` where the computed choice
is not the odds argmax: two outcomes whose odds maximum sits at index 1
while index 0 has more users. -/
def smartGapBet : Bet :=
  { outcomes :=
      [{ id := "o0", title := "a", color := "BLUE", totalUsers := 200,
         totalPoints := 4000, topPoints := 0, percentageUsers := 66,
         odds := 1, oddsPercentage := 100 },
       { id := "o1", title := "b", color := "PINK", totalUsers := 100,
         totalPoints := 6000, topPoints := 0, percentageUsers := 34,
         odds := 2, oddsPercentage := 50 }],
    decision := ⟨0, 0, ""⟩, totalUsers := 300, totalPoints := 10000,
    settings :=
      { strategy := "SMART", percentage := 5, percentageGap := 0, maxPoints := 1000,
        minimumPoints := 0, stealthMode := false, filterCondition := none,
        delay := 6, delayMode := "FROM_END" } }

/-- C3 (counterexample): under `SMART` with `percentageGap = 0` the
computed choice is index 0, whose odds are strictly below the odds of
index 1 — the odds argmax is **not** picked. -/
theorem smart_gap_zero_cex :
    smartGapBet.settings.strategy = "SMART" ∧
    smartGapBet.settings.percentageGap = 0 ∧
    2 ≤ smartGapBet.outcomes.length ∧
    (betCalculate smartGapBet 10000 0).decision.choice = 0 ∧
    getOutcomeValue smartGapBet 0 "odds" < getOutcomeValue smartGapBet 1 "odds" := by
  refine ⟨rfl, rfl, by decide, ?_, by simp [getOutcomeValue, smartGapBet]⟩
  have hchoice : calculateChoice smartGapBet = 0 := by
    simp [calculateChoice, smartGapBet, returnChoice, getOutcomeValue]
    norm_num
  simp only [betCalculate]
  split <;> simp [hchoice]

/-- C3 (amended): under `SMART` with `percentageGap = 0`, the place-bet
choice computation always picks the **users** argmax (the strict
comparison `|percentageUsers₀ − percentageUsers₁| < 0` never holds), for
every outcomes list with at least two outcomes; ties in the argmax are
broken by the lowest index. -/
theorem smart_gap_zero_choice (b : Bet) (balance : ℤ) (x : ℚ)
    (hs : b.settings.strategy = "SMART") (hg : b.settings.percentageGap = 0)
    (hl : 2 ≤ b.outcomes.length) :
    (betCalculate b balance x).decision.choice = (returnChoice b "total_users" : ℤ) ∧
    returnChoice b "total_users" < b.outcomes.length ∧
    (∀ j, j < b.outcomes.length →
      getOutcomeValue b j "total_users" ≤
        getOutcomeValue b (returnChoice b "total_users") "total_users") ∧
    (∀ j, j < returnChoice b "total_users" →
      getOutcomeValue b j "total_users" <
        getOutcomeValue b (returnChoice b "total_users") "total_users") := by
  have hchoice : calculateChoice b = (returnChoice b "total_users" : ℤ) := by
    unfold calculateChoice
    rw [hs, hg]
    have habs : ¬ (|(b.outcomes.getD 0 default).percentageUsers -
        (b.outcomes.getD 1 default).percentageUsers| < ((0 : ℤ) : ℚ)) := by
      push_cast
      exact not_lt.mpr (abs_nonneg _)
    simp [habs, hl]
  have hrest := returnChoice_argmax b "total_users" (by omega)
  refine ⟨?_, hrest.1, hrest.2.1, hrest.2.2⟩
  simp only [betCalculate]
  split <;> simp [hchoice]

/-- Witness for C3's amended theorem at the counterexample bet. -/
theorem smart_gap_zero_choice_witness :
    (betCalculate smartGapBet 10000 0).decision.choice =
      (returnChoice smartGapBet "total_users" : ℤ) ∧
    returnChoice smartGapBet "total_users" < smartGapBet.outcomes.length ∧
    (∀ j, j < smartGapBet.outcomes.length →
      getOutcomeValue smartGapBet j "total_users" ≤
        getOutcomeValue smartGapBet (returnChoice smartGapBet "total_users") "total_users") ∧
    (∀ j, j < returnChoice smartGapBet "total_users" →
      getOutcomeValue smartGapBet j "total_users" <
        getOutcomeValue smartGapBet (returnChoice smartGapBet "total_users") "total_users") :=
  smart_gap_zero_choice smartGapBet 10000 0 (by decide) (by decide) (by decide)

/-! ## C2: prediction enrolment -/

/-- `DefaultStreamerSettings()` from streamer.go. -/
def defaultStreamerSettings : StreamerSettings :=
  { makePredictions := true, followRaid := true, claimDrops := true,
    claimMoments := true, watchStreak := true, communityGoals := false,
    chat := "ONLINE", bet := defaultBetSettings }

/-- The freshly constructed tracking map (`make(map[string]*models.EventPrediction)`). -/
def emptyPredictions : Predictions := fun _ => none

lemma eventCreated_enrol_iff (s : Streamer) (preds : Predictions)
    (f : PredictionEventFrame) (now : ℚ) :
    (handleEventCreated s preds f now).2 = true ↔
      (s.settings.makePredictions = true ∧ s.isOnline = true ∧ f.status = "ACTIVE" ∧
       preds f.eventID = none ∧
       (s.settings.bet.minimumPoints ≤ 0 ∨ s.settings.bet.minimumPoints < s.channelPoints) ∧
       0 < getPredictionWindow s.settings.bet f.predictionWindowSeconds - (now - f.createdAt)) := by
  simp only [handleEventCreated, newEventPrediction, closingBetAfter]
  split_ifs with h1 h2 h3 h4 h5
  · simp only [Bool.not_eq_eq_eq_not, Bool.not_true] at h1
    simp [h1]
  · simp only [Bool.false_eq_true, false_iff]
    rintro ⟨_, _, hst, hpred, _, _⟩
    rcases h2 with h2 | h2
    · rw [hpred] at h2
      simp at h2
    · exact h2 hst
  · simp only [Bool.not_eq_eq_eq_not, Bool.not_true] at h3
    simp [h3]
  · simp only [Bool.false_eq_true, false_iff]
    rintro ⟨_, _, _, _, _, hcl⟩
    linarith
  · simp only [Bool.false_eq_true, false_iff]
    rintro ⟨_, _, _, _, hmin, _⟩
    omega
  · simp only [true_iff]
    push_neg at h2 h5
    refine ⟨?_, ?_, h2.2, ?_, ?_, not_le.mp h4⟩
    · by_contra hb
      exact h1 (by simp [Bool.not_eq_true' .. ] at hb ⊢ <;> simp_all)
    · by_contra hb
      exact h3 (by simp_all)
    · exact Option.not_isSome_iff_eq_none.mp (by simpa using h2.1)
    · omega

/-- C2 (corrected): an `event-created` frame enrols a prediction (stores
it in the tracking map and schedules the deferred bet) iff predictions
are enabled, the broadcaster is online, the event status is `ACTIVE`, the
event id is not yet tracked, the closing-in time (adjusted window minus
elapsed time since creation) is strictly positive, **and** either the
bet profile's minimum-points bound is not positive or the broadcaster's
points exceed it — the code skips the points check entirely when
`MinimumPoints ≤ 0`, so "points must exceed minimum-points" as claimed is
not required in that case.  When not enrolled the map is untouched; when
enrolled the map gains exactly the new event under its id. -/
theorem eventCreated_enrol (s : Streamer) (preds : Predictions)
    (f : PredictionEventFrame) (now : ℚ) :
    ((handleEventCreated s preds f now).2 = true ↔
      (s.settings.makePredictions = true ∧ s.isOnline = true ∧ f.status = "ACTIVE" ∧
       preds f.eventID = none ∧
       (s.settings.bet.minimumPoints ≤ 0 ∨ s.settings.bet.minimumPoints < s.channelPoints) ∧
       0 < getPredictionWindow s.settings.bet f.predictionWindowSeconds - (now - f.createdAt))) ∧
    ((handleEventCreated s preds f now).2 = false →
      (handleEventCreated s preds f now).1 = preds) ∧
    ((handleEventCreated s preds f now).2 = true →
      (handleEventCreated s preds f now).1 f.eventID =
        some (newEventPrediction s.settings f.eventID f.title f.createdAt
          (getPredictionWindow s.settings.bet f.predictionWindowSeconds) f.status f.outcomes)) := by
  refine ⟨eventCreated_enrol_iff s preds f now, ?_, ?_⟩ <;>
    · simp only [handleEventCreated, newEventPrediction]
      split_ifs <;> simp only [] <;> intro h <;> simp_all

/-- The broadcaster of the C2 counterexample: online, predictions
enabled, `minimumPoints = 0` (the default) and **zero** points. -/
def c2Streamer : Streamer :=
  { newStreamer "alice" defaultStreamerSettings with isOnline := true, channelPoints := 0 }

/-- The frame of the C2 counterexample: fresh `ACTIVE` event, 30 s raw
window (24 s after the default `FROM_END` delay of 6). -/
def c2Frame : PredictionEventFrame :=
  { eventID := "event-1", status := "ACTIVE", title := "t", createdAt := 0,
    predictionWindowSeconds := 30, outcomes := [] }

lemma c2_enrolled : (handleEventCreated c2Streamer emptyPredictions c2Frame 0).2 = true := by
  rw [eventCreated_enrol_iff]
  refine ⟨rfl, rfl, rfl, rfl, Or.inl (by decide), ?_⟩
  simp [c2Streamer, c2Frame, newStreamer, defaultStreamerSettings,
    defaultBetSettings, getPredictionWindow]
  norm_num

/-- C2 (counterexample): with `minimumPoints = 0` and `points = 0` the
event **is** enrolled although the points do not exceed the minimum, so
the claimed precondition `points > minimum-points` does not hold of the
code. -/
theorem eventCreated_cex :
    (handleEventCreated c2Streamer emptyPredictions c2Frame 0).2 = true ∧
    ¬ (c2Streamer.settings.bet.minimumPoints < c2Streamer.channelPoints) :=
  ⟨c2_enrolled, by decide⟩

/-- Witness for C2's amended theorem: the enrolment of the concrete frame
stores the freshly built event. -/
theorem eventCreated_witness :
    (handleEventCreated c2Streamer emptyPredictions c2Frame 0).1 "event-1" =
      some (newEventPrediction c2Streamer.settings "event-1" "t" 0
        (getPredictionWindow c2Streamer.settings.bet 30) "ACTIVE" []) :=
  (eventCreated_enrol c2Streamer emptyPredictions c2Frame 0).2.2 c2_enrolled

/-! ## C10: event-updated frame effect -/

/-- C10 (confirmed): for a stored prediction whose bet decision has been
computed (non-empty decision outcome id) or whose bet has been placed,
an `event-updated` frame only overwrites the event's status: outcome
statistics, totals and all derived numbers stay untouched, and all other
map entries are unchanged. -/
theorem eventUpdated_frame (s : Streamer) (preds : Predictions)
    (eventID newStatus : String) (updates : List RawOutcome) (event : EventPrediction)
    (hmp : s.settings.makePredictions = true)
    (hev : preds eventID = some event)
    (hdec : event.bet.decision.id ≠ "" ∨ event.betPlaced = true) :
    handleEventUpdated s preds eventID newStatus updates =
      fun k => if k = eventID then some { event with status := newStatus } else preds k := by
  simp only [handleEventUpdated, hmp, Bool.not_true, Bool.false_eq_true, if_false, hev]
  rcases hdec with h | h <;> rw [if_neg (by simp [h])]

/-- The stored event of the C10 witness: decision already computed. -/
def c10Event : EventPrediction :=
  { eventID := "e10", title := "t", createdAt := 0, predictionWindowSeconds := 24,
    status := "ACTIVE", result := ⟨"", 0⟩, betConfirmed := false, betPlaced := false,
    bet := { outcomes := [], decision := ⟨0, 120, "decided-outcome"⟩,
             totalUsers := 7, totalPoints := 900, settings := defaultBetSettings } }

/-- The tracking map of the C10 witness. -/
def c10Preds : Predictions := fun k => if k = "e10" then some c10Event else none

/-- Witness for C10: a concrete `event-updated` delivery on a
decision-computed event rewrites only the status. -/
theorem eventUpdated_frame_witness :
    handleEventUpdated (newStreamer "carol" defaultStreamerSettings) c10Preds "e10" "LOCKED"
        [{ id := none, title := none, color := none, totalUsers := some 1000,
           totalPoints := some 1, topPredictors := none }] =
      fun k => if k = "e10" then some { c10Event with status := "LOCKED" } else c10Preds k :=
  eventUpdated_frame (newStreamer "carol" defaultStreamerSettings) c10Preds "e10" "LOCKED"
    [{ id := none, title := none, color := none, totalUsers := some 1000,
       totalPoints := some 1, topPredictors := none }] c10Event
    rfl (by simp [c10Preds]) (Or.inl (by decide))

/-! ## C5: prediction-result accounting -/

/-- The C5 claim, instantiated: the `(placed, won, gained)` triple and the
history-ledger effect of handling a `prediction-result` frame, per result
type. -/
def ResolveSpec (s : Streamer) (preds : Predictions) (eventID resultType : String)
    (pw : ℤ) (event : EventPrediction) : Prop :=
  let out := handlePredictionResult s preds eventID resultType (some pw)
  let r := parseResult event resultType (some pw)
  (resultType = "REFUND" →
    r.2.1 = 0 ∧ r.2.2.1 = 0 ∧ r.2.2.2 = 0 ∧
    out.1.history "PREDICTION" =
      ⟨(s.history "PREDICTION").counter + 1, (s.history "PREDICTION").amount + r.2.2.2⟩ ∧
    out.1.history "REFUND" =
      ⟨(s.history "REFUND").counter - 1, (s.history "REFUND").amount - r.2.1⟩ ∧
    ∀ k, k ≠ "PREDICTION" → k ≠ "REFUND" → out.1.history k = s.history k) ∧
  (resultType = "WIN" →
    r.2.1 = event.bet.decision.amount ∧ r.2.2.1 = pw ∧
    r.2.2.2 = r.2.2.1 - r.2.1 ∧
    out.1.history "PREDICTION" =
      ⟨(s.history "PREDICTION").counter + 1 - 1,
       (s.history "PREDICTION").amount + r.2.2.2 - r.2.2.1⟩ ∧
    ∀ k, k ≠ "PREDICTION" → out.1.history k = s.history k) ∧
  (resultType = "LOSE" →
    r.2.1 = event.bet.decision.amount ∧ r.2.2.1 = pw ∧
    r.2.2.2 = r.2.2.1 - r.2.1 ∧
    out.1.history "PREDICTION" =
      ⟨(s.history "PREDICTION").counter + 1, (s.history "PREDICTION").amount + r.2.2.2⟩ ∧
    ∀ k, k ≠ "PREDICTION" → out.1.history k = s.history k) ∧
  out.2 eventID = some r.1

/-- C5 (confirmed): on a tracked, bet-confirmed prediction, a
`prediction-result` frame yields `placed = 0, won = 0, gained = 0` for
`REFUND` and `placed = decision.amount, won = points_won,
gained = won − placed` for `WIN`/`LOSE`; the history at `"PREDICTION"` is
bumped by `(+1, +gained)`, with the extra `("REFUND", −1, −placed)` entry
on refunds and the extra `("PREDICTION", −1, −won)` reversal on wins; no
other ledger key changes. -/
theorem predictionResult_history (s : Streamer) (preds : Predictions)
    (eventID resultType : String) (pw : ℤ) (event : EventPrediction)
    (hev : preds eventID = some event) (hc : event.betConfirmed = true) :
    ResolveSpec s preds eventID resultType pw event := by
  unfold ResolveSpec handlePredictionResult
  simp only [hev, hc, Bool.not_true, Bool.false_eq_true, if_false]
  refine ⟨?_, ?_, ?_, ?_⟩
  · intro h
    subst h
    simp [parseResult, updateHistory, updateHistoryWithCounter]
    constructor
    · ring
    · intro k h1 h2
      simp [h1, h2]
  · intro h
    subst h
    simp [parseResult, updateHistory, updateHistoryWithCounter]
    constructor
    · constructor <;> ring
    · intro k h1
      simp [h1]
  · intro h
    subst h
    simp [parseResult, updateHistory, updateHistoryWithCounter]
    intro k h1
    simp [h1]
  · simp [parseResult]

/-- The streamer of the C5 witness (empty ledger). -/
def c5Streamer : Streamer :=
  { newStreamer "bob" defaultStreamerSettings with channelPoints := 1000 }

/-- The tracked, bet-confirmed event of the C5 witness: 50 points placed. -/
def c5Event : EventPrediction :=
  { eventID := "e5", title := "t", createdAt := 0, predictionWindowSeconds := 24,
    status := "LOCKED", result := ⟨"", 0⟩, betConfirmed := true, betPlaced := true,
    bet := { outcomes := [], decision := ⟨0, 50, "o0"⟩, totalUsers := 0,
             totalPoints := 0, settings := defaultBetSettings } }

/-- The tracking map of the C5 witness. -/
def c5Preds : Predictions := fun k => if k = "e5" then some c5Event else none

/-- Witness for C5 at a concrete `WIN` with 100 points won on a 50-point
bet. -/
theorem predictionResult_history_witness :
    ResolveSpec c5Streamer c5Preds "e5" "WIN" 100 c5Event :=
  predictionResult_history c5Streamer c5Preds "e5" "WIN" 100 c5Event
    (by simp [c5Preds]) rfl

/-! ## C6: resolved predictions stay in the tracking map -/

/-- C6 (counterexample): handling a `prediction-result` on a tracked,
bet-confirmed event leaves the event **in** the tracking map — nothing in
the dispatcher ever deletes a prediction entry. -/
theorem predictionResult_keeps_event :
    (c5Preds "e5").isSome = true ∧ c5Event.betConfirmed = true ∧
    ((handlePredictionResult c5Streamer c5Preds "e5" "WIN" (some 100)).2 "e5").isSome = true := by
  refine ⟨by simp [c5Preds], rfl, ?_⟩
  simp [handlePredictionResult, c5Preds, c5Event]

/-- C6 (amended): neither the `prediction-result` handler nor the
`event-updated` handler ever removes an entry from the prediction
tracking map: the map's domain is exactly preserved (the code contains no
`delete` on the map, so resolved and canceled events are retained). -/
theorem prediction_handlers_never_remove :
    (∀ (s : Streamer) (preds : Predictions) (eventID resultType : String)
       (pointsWon : Option ℤ) (k : String),
       (((handlePredictionResult s preds eventID resultType pointsWon).2 k).isSome) =
         (preds k).isSome) ∧
    (∀ (s : Streamer) (preds : Predictions) (eventID newStatus : String)
       (updates : List RawOutcome) (k : String),
       ((handleEventUpdated s preds eventID newStatus updates k).isSome) =
         (preds k).isSome) := by
  constructor
  · intro s preds eventID rt pw k
    simp only [handlePredictionResult]
    rcases hev : preds eventID with _ | event <;> simp only [hev]
    rcases hbc : event.betConfirmed with _ | _
    · simp
    · by_cases hk : k = eventID
      · subst hk
        simp [hev]
      · simp [hk]
  · intro s preds eventID newStatus updates k
    simp only [handleEventUpdated]
    rcases hbp : s.settings.makePredictions with _ | _
    · simp
    · simp only [Bool.not_true, Bool.false_eq_true, if_false]
      rcases hev : preds eventID with _ | event <;> simp only [hev]
      by_cases hk : k = eventID
      · subst hk
        simp [hev]
      · simp [hk]

/-! ## C8: online-since vs. online flag -/

/-- Broadcaster states reachable from construction through the
online/offline transitions of streamer.go. -/
inductive ReachableStreamer : Streamer → Prop
  | init (username : String) (settings : StreamerSettings) :
      ReachableStreamer (newStreamer username settings)
  | goOnline {s : Streamer} (t : ℤ) :
      ReachableStreamer s → ReachableStreamer (setOnline t s)
  | goOffline {s : Streamer} (t : ℤ) :
      ReachableStreamer s → ReachableStreamer (setOffline t s)

/-- C8 (counterexample): `SetOffline` clears the online flag and stamps
`OfflineAt` but never clears `OnlineAt`; after one online→offline round
trip the broadcaster is a reachable state with the flag down and a
non-empty online-since — the claimed "non-empty iff flag set" invariant
fails. -/
theorem onlineSince_iff_cex :
    ReachableStreamer (setOffline 2 (setOnline 1 (newStreamer "x" defaultStreamerSettings))) ∧
    (setOffline 2 (setOnline 1 (newStreamer "x" defaultStreamerSettings))).isOnline = false ∧
    (setOffline 2 (setOnline 1 (newStreamer "x" defaultStreamerSettings))).onlineAt ≠ none := by
  refine ⟨.goOffline 2 (.goOnline 1 (.init "x" defaultStreamerSettings)), ?_, ?_⟩ <;>
    simp [setOnline, setOffline, newStreamer]

/-- C8 (amended): at every reachable state the flag-to-timestamp direction
holds — a set online flag implies a non-empty online-since — and every
clearing transition (offline while online) stamps offline-since and keeps
online-since untouched; the converse direction of the claimed "iff" is
the part the code does not maintain. -/
theorem online_flag_invariant :
    (∀ s, ReachableStreamer s → s.isOnline = true → s.onlineAt ≠ none) ∧
    (∀ (t : ℤ) (s : Streamer), s.isOnline = true →
      (setOffline t s).offlineAt = some t ∧ (setOffline t s).isOnline = false ∧
      (setOffline t s).onlineAt = s.onlineAt) ∧
    (∀ (t : ℤ) (s : Streamer), s.isOnline = false →
      (setOnline t s).onlineAt = some t ∧ (setOnline t s).isOnline = true) := by
  refine ⟨?_, ?_, ?_⟩
  · intro s hs
    induction hs with
    | init username settings => simp [newStreamer]
    | goOnline t hs ih =>
      rename_i s'
      by_cases h : s'.isOnline = true <;> simp [setOnline, h, ih]
    | goOffline t hs ih =>
      rename_i s'
      by_cases h : s'.isOnline = true <;> simp [setOffline, h, ih]
  · intro t s h
    simp [setOffline, h]
  · intro t s h
    simp [setOnline, h]

/-- Witness for C8's amended invariant at a concrete online state. -/
theorem online_flag_invariant_witness :
    (setOnline 1 (newStreamer "x" defaultStreamerSettings)).onlineAt ≠ none :=
  online_flag_invariant.1 _ (.goOnline 1 (.init "x" defaultStreamerSettings))
    (by simp [setOnline, newStreamer])

/-! ## C7: beacon emission order -/

lemma addCandidate_nodup {max : ℕ} {acc : List ℕ} {i : ℕ} (h : acc.Nodup) :
    (addCandidate max acc i).Nodup := by
  unfold addCandidate
  split_ifs with h1 h2
  · exact h
  · simp [List.nodup_append, h, h1]
  · exact h

lemma addCandidates_nodup {max : ℕ} (cands : List ℕ) :
    ∀ {acc : List ℕ}, acc.Nodup → (addCandidates max acc cands).Nodup := by
  induction cands with
  | nil => intro acc h; exact h
  | cons c rest ih =>
    intro acc h
    exact ih (addCandidate_nodup h)

lemma selectionList_nodup (S : List Streamer) (priorities : List String)
    (online : List ℕ) (now : ℤ) : (selectionList S priorities online now).Nodup := by
  unfold selectionList
  have aux : ∀ (ps : List String) (acc : List ℕ), acc.Nodup →
      (ps.foldl (fun acc p =>
        addCandidates maxSimultaneousStreams acc (candidatesFor S online now p)) acc).Nodup := by
    intro ps
    induction ps with
    | nil => intro acc h; exact h
    | cons p rest ih => intro acc h; exact ih _ (addCandidates_nodup _ h)
  exact aux priorities [] (by simp)

/-- Two broadcasters for the C7 counterexample; under priority `ORDER`
with both online, the selection inserts index 0, then index 1. -/
def c7Streamers : List Streamer :=
  [newStreamer "a" defaultStreamerSettings, newStreamer "b" defaultStreamerSettings]

/-- C7 (counterexample): `[1, 0]` is a possible return value of
`selectStreamersToWatch` (a duplicate-free enumeration of the `watching`
map's keys), yet it differs from the selection (insertion) order
`[0, 1]` — so the emission order is **not** the selection order, and not
a deterministic function of the priority list and broadcaster state. -/
theorem selection_order_cex :
    SelectionOutput c7Streamers ["ORDER"] [0, 1] 0 [1, 0] ∧
    [1, 0] ≠ selectionList c7Streamers ["ORDER"] [0, 1] 0 := by
  exact ⟨⟨by decide, by decide⟩, by decide⟩

/-- C7 (amended): within a cycle the beacons are emitted sequentially,
one per entry of the list `selectStreamersToWatch` returns; that list is
an arbitrary enumeration of the `watching` map, so it is only guaranteed
to be a **permutation** of the deterministic selection order built by
walking the priority list — the emitted *set* of broadcasters is a
deterministic function of the priority list and broadcaster state, the
emission *order* within the cycle is not. -/
theorem selection_set_deterministic (S : List Streamer) (priorities : List String)
    (online : List ℕ) (now : ℤ) (l : List ℕ)
    (h : SelectionOutput S priorities online now l) :
    l.Perm (selectionList S priorities online now) :=
  List.perm_of_nodup_nodup_toFinset_eq h.1 (selectionList_nodup S priorities online now) h.2

/-- Witness for C7's amended theorem at the concrete enumeration `[1, 0]`. -/
theorem selection_set_deterministic_witness :
    [1, 0].Perm (selectionList c7Streamers ["ORDER"] [0, 1] 0) :=
  selection_set_deterministic c7Streamers ["ORDER"] [0, 1] 0 [1, 0] ⟨by decide, by decide⟩

/-! ## C4: bet amount computation -/

lemma goTrunc_of_nonneg {q : ℚ} (h : 0 ≤ q) : goTrunc q = ⌊q⌋ := by
  simp [goTrunc, h]

lemma floor_mul_div (balance pct : ℤ) :
    (balance : ℚ) * ((pct : ℚ) / 100) = ((balance * pct : ℤ) : ℚ) / 100 := by
  push_cast
  ring

lemma cap_eq_min (a m : ℤ) : (if m < a then m else a) = min a m := by
  split <;> omega

lemma goTrunc_x4 (x : ℚ) (hx0 : 0 ≤ x) (hx1 : x < 1) :
    1 ≤ goTrunc (x * 4 + 1) ∧ goTrunc (x * 4 + 1) ≤ 4 := by
  rw [goTrunc_of_nonneg (by linarith)]
  constructor
  · exact Int.le_floor.mpr (by push_cast; linarith)
  · have h5 : ⌊x * 4 + 1⌋ < 5 := Int.floor_lt.mpr (by push_cast; linarith)
    omega

lemma betCalculate_choice (b : Bet) (balance : ℤ) (x : ℚ) :
    (betCalculate b balance x).decision.choice = calculateChoice b := by
  simp only [betCalculate]
  split <;> rfl

lemma betCalculate_amount_pos (b : Bet) (balance : ℤ) (x : ℚ)
    (h : 0 ≤ calculateChoice b ∧ calculateChoice b < (b.outcomes.length : ℤ)) :
    (betCalculate b balance x).decision.amount =
      (if b.settings.stealthMode ∧
          (b.outcomes.getD (calculateChoice b).toNat default).topPoints ≤
            (if b.settings.maxPoints < goTrunc ((balance : ℚ) * ((b.settings.percentage : ℚ) / 100))
             then b.settings.maxPoints
             else goTrunc ((balance : ℚ) * ((b.settings.percentage : ℚ) / 100)))
       then (b.outcomes.getD (calculateChoice b).toNat default).topPoints - goTrunc (x * 4 + 1)
       else (if b.settings.maxPoints < goTrunc ((balance : ℚ) * ((b.settings.percentage : ℚ) / 100))
             then b.settings.maxPoints
             else goTrunc ((balance : ℚ) * ((b.settings.percentage : ℚ) / 100)))) := by
  simp only [betCalculate, if_pos h]

lemma betCalculate_amount_neg (b : Bet) (balance : ℤ) (x : ℚ)
    (h : ¬ (0 ≤ calculateChoice b ∧ calculateChoice b < (b.outcomes.length : ℤ))) :
    (betCalculate b balance x).decision.amount = 0 := by
  simp only [betCalculate, if_neg h]

/-- The C4 claim, instantiated at an event, a balance and the stealth
random draw `x ∈ [0, 1)`: the amount formula with its max-points cap, the
stealth reduction to top-points minus an integer in `[1, 5]`, the
below-10 abort, and `maxPoints = 0` disabling all bets. -/
def betAmountSpec (e : EventPrediction) (balance : ℤ) (x : ℚ) : Prop :=
  (e.bet.settings.stealthMode = false →
    0 ≤ (betCalculate e.bet balance x).decision.choice →
    (betCalculate e.bet balance x).decision.choice < (e.bet.outcomes.length : ℤ) →
    (betCalculate e.bet balance x).decision.amount =
      min ⌊((balance * e.bet.settings.percentage : ℤ) : ℚ) / 100⌋ e.bet.settings.maxPoints) ∧
  (e.bet.settings.stealthMode = true →
    0 ≤ (betCalculate e.bet balance x).decision.choice →
    (betCalculate e.bet balance x).decision.choice < (e.bet.outcomes.length : ℤ) →
    (e.bet.outcomes.getD (betCalculate e.bet balance x).decision.choice.toNat default).topPoints ≤
      min ⌊((balance * e.bet.settings.percentage : ℤ) : ℚ) / 100⌋ e.bet.settings.maxPoints →
    ∃ r : ℤ, 1 ≤ r ∧ r ≤ 5 ∧
      (betCalculate e.bet balance x).decision.amount =
        (e.bet.outcomes.getD
          (betCalculate e.bet balance x).decision.choice.toNat default).topPoints - r) ∧
  (∀ sub : Submission, (makePrediction e balance x).1 = some sub →
    10 ≤ sub.points ∧ sub.points = (betCalculate e.bet balance x).decision.amount) ∧
  (e.bet.settings.maxPoints = 0 → (makePrediction e balance x).1 = none)

/-- C4 (confirmed): for a non-negative balance and percentage and a
stealth draw in `[0, 1)`, the bet amount is `⌊balance·percentage/100⌋`
capped at max-points; with stealth mode on and that amount at least the
chosen outcome's top-points the amount becomes top-points minus an
integer in `[1, 5]`; an amount below 10 is never submitted to the API;
and `maxPoints = 0` suppresses every submission. -/
theorem makePrediction_amount (e : EventPrediction) (balance : ℤ) (x : ℚ)
    (hbal : 0 ≤ balance) (hpct : 0 ≤ e.bet.settings.percentage)
    (hx0 : 0 ≤ x) (hx1 : x < 1) : betAmountSpec e balance x := by
  have hch := betCalculate_choice e.bet balance x
  have hq0 : (0 : ℚ) ≤ (balance : ℚ) * ((e.bet.settings.percentage : ℚ) / 100) :=
    mul_nonneg (by exact_mod_cast hbal)
      (div_nonneg (by exact_mod_cast hpct) (by norm_num))
  have hamount0 : goTrunc ((balance : ℚ) * ((e.bet.settings.percentage : ℚ) / 100)) =
      ⌊((balance * e.bet.settings.percentage : ℤ) : ℚ) / 100⌋ := by
    rw [goTrunc_of_nonneg hq0, floor_mul_div]
  refine ⟨?_, ?_, ?_, ?_⟩
  · intro hst h0 hlt
    rw [hch] at h0 hlt
    rw [betCalculate_amount_pos e.bet balance x ⟨h0, hlt⟩, if_neg (by simp [hst]),
      cap_eq_min, hamount0]
  · intro hst h0 hlt htop
    rw [hch] at h0 hlt
    rw [hch, ← hamount0, ← cap_eq_min (goTrunc _) e.bet.settings.maxPoints] at htop
    rw [betCalculate_amount_pos e.bet balance x ⟨h0, hlt⟩, hch,
      if_pos ⟨hst, htop⟩]
    exact ⟨goTrunc (x * 4 + 1), (goTrunc_x4 x hx0 hx1).1,
      le_trans (goTrunc_x4 x hx0 hx1).2 (by norm_num), rfl⟩
  · intro sub hsub
    simp only [makePrediction] at hsub
    by_cases h1 : (betCalculate e.bet balance x).decision.amount < 10
    · rw [if_pos h1] at hsub
      exact absurd hsub (by simp)
    · rw [if_neg h1] at hsub
      by_cases h2 : (betSkip (betCalculate e.bet balance x)).1 = true
      · rw [if_pos h2] at hsub
        exact absurd hsub (by simp)
      · rw [if_neg h2] at hsub
        have hx := Option.some.inj hsub
        subst hx
        refine ⟨?_, rfl⟩
        exact not_lt.mp h1
  · intro hmp0
    have hamt : (betCalculate e.bet balance x).decision.amount < 10 := by
      by_cases hvalid : 0 ≤ calculateChoice e.bet ∧
          calculateChoice e.bet < (e.bet.outcomes.length : ℤ)
      · rw [betCalculate_amount_pos e.bet balance x hvalid, hmp0]
        have ha0 : 0 ≤ goTrunc ((balance : ℚ) * ((e.bet.settings.percentage : ℚ) / 100)) := by
          rw [goTrunc_of_nonneg hq0]
          exact Int.floor_nonneg.mpr hq0
        have hr1 := (goTrunc_x4 x hx0 hx1).1
        split_ifs <;> omega
      · rw [betCalculate_amount_neg e.bet balance x hvalid]
        omega
    simp only [makePrediction]
    rw [if_pos hamt]

/-- The event of the C4 witness: `MOST_VOTED`, 5 %, cap 1000, no stealth. -/
def c4Event : EventPrediction :=
  { eventID := "e4", title := "t", createdAt := 0, predictionWindowSeconds := 24,
    status := "ACTIVE", result := ⟨"", 0⟩, betConfirmed := false, betPlaced := false,
    bet :=
      { outcomes :=
          [{ id := "oA", title := "a", color := "BLUE", totalUsers := 200,
             totalPoints := 4000, topPoints := 0, percentageUsers := 66,
             odds := 1, oddsPercentage := 100 },
           { id := "oB", title := "b", color := "PINK", totalUsers := 100,
             totalPoints := 6000, topPoints := 0, percentageUsers := 34,
             odds := 2, oddsPercentage := 50 }],
        decision := ⟨0, 0, ""⟩, totalUsers := 300, totalPoints := 10000,
        settings :=
          { strategy := "MOST_VOTED", percentage := 5, percentageGap := 20,
            maxPoints := 1000, minimumPoints := 0, stealthMode := false,
            filterCondition := none, delay := 6, delayMode := "FROM_END" } } }

/-- Witness for C4 at balance 10000 and stealth draw 0. -/
theorem makePrediction_amount_witness : betAmountSpec c4Event 10000 0 :=
  makePrediction_amount c4Event 10000 0 (by decide) (by decide) (by norm_num) (by norm_num)

end TwitchMiner
